import Mathlib

/-!
Verification of the maintenance operation runner in `cancel-case-42.py`.

The script reads `DATABASE_URL` from the environment, connects to a
database, runs a fixed `UPDATE ... RETURNING` against the `cases` table
for id 42, prints a confirmation line, inserts one row into
`activity_log`, commits, and closes.  All failures are caught by one
blanket handler that prints a single diagnostic line and lets the
process end normally.

The embedding below models the database as lists of rows, and the run as
a function from an environment oracle (connection and statement failure
outcomes, current timestamp) and an initial committed database state to
a run result: the final committed state, the printed lines, the exit
code, and flags recording which statements were issued and whether
commit ran.
-/

/-- A row of the `cases` table.  The script touches `status`,
`portal_url` and `last_portal_status`; `otherCols` stands for all the
remaining columns of the row, which the UPDATE does not mention. -/
structure CaseRow where
  id : Nat
  case_name : String
  status : String
  portal_url : Option String
  last_portal_status : String
  otherCols : List (String × String)
deriving DecidableEq, Repr

/-- A row of the `activity_log` table. -/
structure ActivityRow where
  case_id : Nat
  event_type : String
  description : String
  created_at : Nat
deriving DecidableEq, Repr

/-- The committed database state seen by the script. -/
structure DB where
  cases : List CaseRow
  activity_log : List ActivityRow
deriving DecidableEq, Repr

/-- The fixed new status written by the UPDATE. -/
def newStatus : String := "sent"

/-- The fixed `last_portal_status` message written by the UPDATE. -/
def cancelMsg : String := "Cancelled - Odessa account locked"

/-- The fixed `event_type` of the inserted activity row. -/
def logEventType : String := "portal_cancelled"

/-- The fixed description of the inserted activity row. -/
def logDescription : String := "Portal submission cancelled - Odessa account locked"

/-- Effect of the SET clause of the UPDATE on one matching row. -/
def updateRow (r : CaseRow) : CaseRow :=
  { r with status := newStatus, portal_url := none, last_portal_status := cancelMsg }

/-- Effect of `UPDATE cases SET ... WHERE id = 42` on the whole table. -/
def updatedCases (cs : List CaseRow) : List CaseRow :=
  cs.map (fun r => if r.id = 42 then updateRow r else r)

/-- The rows produced by `RETURNING id, case_name, status`: the
post-update id, name and status of every row matched by the WHERE
clause. -/
def returningRows (cs : List CaseRow) : List (Nat × String × String) :=
  ((updatedCases cs).filter (fun r => r.id = 42)).map
    (fun r => (r.id, r.case_name, r.status))

/-- The activity row inserted by the script, timestamped with
`datetime.now()`. -/
def logRow (t : Nat) : ActivityRow :=
  ⟨42, logEventType, logDescription, t⟩

/-- Python string slicing `s[:50]`: the first 50 characters of `s`. -/
def pyTrunc50 (s : String) : String :=
  String.mk (s.data.take 50)

/-- Environment oracle for one run: the `DATABASE_URL` value, whether
the connection attempt, the INSERT and the commit succeed, and the
current timestamp. -/
structure Env where
  database_url : Option String
  connectOk : Bool
  insertOk : Bool
  commitOk : Bool
  now : Nat
deriving DecidableEq, Repr

/-- `psycopg2.connect` succeeds: the connection string is present and
the database accepts the connection.  Absence of `DATABASE_URL`
surfaces as a connection-layer error. -/
def connects (e : Env) : Bool :=
  e.database_url.isSome && e.connectOk

/-- Observable outcome of one run of the script. -/
structure RunResult where
  /-- The committed database state after the process ends; uncommitted
  statement effects are discarded when the connection goes away. -/
  committed : DB
  /-- The lines printed to standard output, in order. -/
  output : List String
  /-- The process exit code; the script never calls `sys.exit`, so it
  is 0 on every path. -/
  exitCode : Nat
  /-- The UPDATE statement was issued to the database. -/
  executedUpdate : Bool
  /-- The INSERT statement was issued to the database. -/
  executedInsert : Bool
  /-- `conn.commit()` ran successfully. -/
  didCommit : Bool
  /-- The name component interpolated into the confirmation line, when
  that line was printed. -/
  printedName : Option String
deriving Repr

/-- The confirmation line
`f"Case 42 updated: ID={result[0]}, Name={result[1][:50]}, Status={result[2]}"`. -/
def confirmLine (rid : Nat) (rname rstatus : String) : String :=
  "Case 42 updated: ID=" ++ toString rid ++ ", Name=" ++ pyTrunc50 rname
    ++ ", Status=" ++ rstatus

/-- One run of the script: connect, UPDATE with RETURNING, fetchone,
print, INSERT, commit, close.  Any exception jumps to the blanket
handler, which prints one `Error: ...` line; the process then falls off
the end of the file and exits with code 0. -/
def run (e : Env) (db : DB) : RunResult :=
  if connects e then
    match (returningRows db.cases).head? with
    | none =>
        -- `cur.fetchone()` gave None and `result[0]` raised TypeError.
        { committed := db
          output := ["Error: NoneType object is not subscriptable"]
          exitCode := 0
          executedUpdate := true
          executedInsert := false
          didCommit := false
          printedName := none }
    | some (rid, rname, rstatus) =>
        let line1 := confirmLine rid rname rstatus
        if e.insertOk then
          if e.commitOk then
            { committed :=
                ⟨updatedCases db.cases, db.activity_log ++ [logRow e.now]⟩
              output := [line1, "Activity logged for case 42",
                         "Successfully cancelled case 42 portal submission"]
              exitCode := 0
              executedUpdate := true
              executedInsert := true
              didCommit := true
              printedName := some (pyTrunc50 rname) }
          else
            { committed := db
              output := [line1, "Error: commit failed"]
              exitCode := 0
              executedUpdate := true
              executedInsert := true
              didCommit := false
              printedName := some (pyTrunc50 rname) }
        else
          { committed := db
            output := [line1, "Error: insert failed"]
            exitCode := 0
            executedUpdate := true
            executedInsert := false
            didCommit := false
            printedName := some (pyTrunc50 rname) }
  else
    { committed := db
      output := ["Error: connection failed"]
      exitCode := 0
      executedUpdate := false
      executedInsert := false
      didCommit := false
      printedName := none }

/-- A printed line is an error line when it starts with `Error: `. -/
def isErrorLine (s : String) : Bool :=
  "Error: ".data.isPrefixOf s.data

/-! ### Sample data used by the witnesses -/

/-- A case row with id 42 whose name is longer than 50 characters. -/
def sampleRow : CaseRow :=
  ⟨42, "Acme Industrial Holdings versus Odessa Portal Operations Division",
   "portal_pending", some "portal.example/submissions/42", "Submitted", [("owner", "alice")]⟩

/-- A case row with an id other than 42. -/
def otherRow : CaseRow :=
  ⟨7, "Unrelated case", "open", none, "", [("owner", "bob")]⟩

/-- A database containing the target row, one unrelated row and one
preexisting activity entry. -/
def sampleDB : DB :=
  ⟨[otherRow, sampleRow], [⟨7, "note_added", "initial note", 100⟩]⟩

/-- A database with no row whose id is 42. -/
def noTargetDB : DB :=
  ⟨[otherRow], []⟩

/-- An environment in which everything succeeds. -/
def goodEnv : Env :=
  ⟨some "postgres://db.example/autobot", true, true, true, 1000⟩

/-- A second all-success environment with a later timestamp. -/
def goodEnv2 : Env :=
  ⟨some "postgres://db.example/autobot", true, true, true, 2000⟩

/-- `DATABASE_URL` is unset, so the connection attempt fails. -/
def noUrlEnv : Env :=
  ⟨none, false, true, true, 1000⟩

/-- The INSERT into `activity_log` fails. -/
def insertFailEnv : Env :=
  ⟨some "postgres://db.example/autobot", true, false, true, 1000⟩

/-- The commit fails. -/
def commitFailEnv : Env :=
  ⟨some "postgres://db.example/autobot", true, true, false, 1000⟩

/-! ### Characterization of the run on each control path -/

/-- Failed connection path. -/
theorem run_not_connects (e : Env) (db : DB) (h : connects e = false) :
    run e db =
      { committed := db, output := ["Error: connection failed"], exitCode := 0,
        executedUpdate := false, executedInsert := false, didCommit := false,
        printedName := none } := by
  simp [run, h]

/-- Connected, but the UPDATE matched no row: `fetchone` gave None. -/
theorem run_fetch_none (e : Env) (db : DB) (h : connects e = true)
    (hr : (returningRows db.cases).head? = none) :
    run e db =
      { committed := db, output := ["Error: NoneType object is not subscriptable"],
        exitCode := 0, executedUpdate := true, executedInsert := false,
        didCommit := false, printedName := none } := by
  simp [run, h, hr]

/-- Connected, row matched, but the INSERT fails. -/
theorem run_insert_fail (e : Env) (db : DB) (a : Nat) (b c : String)
    (h : connects e = true) (hr : (returningRows db.cases).head? = some (a, b, c))
    (hi : e.insertOk = false) :
    run e db =
      { committed := db, output := [confirmLine a b c, "Error: insert failed"],
        exitCode := 0, executedUpdate := true, executedInsert := false,
        didCommit := false, printedName := some (pyTrunc50 b) } := by
  simp [run, h, hr, hi]

/-- Connected, row matched, INSERT succeeded, but the commit fails. -/
theorem run_commit_fail (e : Env) (db : DB) (a : Nat) (b c : String)
    (h : connects e = true) (hr : (returningRows db.cases).head? = some (a, b, c))
    (hi : e.insertOk = true) (hm : e.commitOk = false) :
    run e db =
      { committed := db, output := [confirmLine a b c, "Error: commit failed"],
        exitCode := 0, executedUpdate := true, executedInsert := true,
        didCommit := false, printedName := some (pyTrunc50 b) } := by
  simp [run, h, hr, hi, hm]

/-- The all-success path. -/
theorem run_success (e : Env) (db : DB) (a : Nat) (b c : String)
    (h : connects e = true) (hr : (returningRows db.cases).head? = some (a, b, c))
    (hi : e.insertOk = true) (hm : e.commitOk = true) :
    run e db =
      { committed := ⟨updatedCases db.cases, db.activity_log ++ [logRow e.now]⟩,
        output := [confirmLine a b c, "Activity logged for case 42",
                   "Successfully cancelled case 42 portal submission"],
        exitCode := 0, executedUpdate := true, executedInsert := true,
        didCommit := true, printedName := some (pyTrunc50 b) } := by
  simp [run, h, hr, hi, hm]

/-! ### Helper lemmas -/

/-- The WHERE clause leaves row ids unchanged. -/
theorem updatedCases_elem_id (r : CaseRow) :
    (if r.id = 42 then updateRow r else r).id = r.id := by
  split <;> rfl

/-- Any run that commits leaves exactly the post-UPDATE table and the
extended activity log as the committed state. -/
theorem run_committed_of_didCommit (e : Env) (db : DB)
    (h : (run e db).didCommit = true) :
    (run e db).committed =
      ⟨updatedCases db.cases, db.activity_log ++ [logRow e.now]⟩ := by
  cases hc : connects e with
  | false => rw [run_not_connects e db hc] at h; simp at h
  | true =>
    cases hr : (returningRows db.cases).head? with
    | none => rw [run_fetch_none e db hc hr] at h; simp at h
    | some p =>
      obtain ⟨a, b, c⟩ := p
      cases hi : e.insertOk with
      | false => rw [run_insert_fail e db a b c hc hr hi] at h; simp at h
      | true =>
        cases hm : e.commitOk with
        | false => rw [run_commit_fail e db a b c hc hr hi hm] at h; simp at h
        | true => rw [run_success e db a b c hc hr hi hm]

/-- Any run that does not commit leaves the committed state untouched. -/
theorem run_committed_of_not_didCommit (e : Env) (db : DB)
    (h : (run e db).didCommit = false) :
    (run e db).committed = db := by
  cases hc : connects e with
  | false => rw [run_not_connects e db hc]
  | true =>
    cases hr : (returningRows db.cases).head? with
    | none => rw [run_fetch_none e db hc hr]
    | some p =>
      obtain ⟨a, b, c⟩ := p
      cases hi : e.insertOk with
      | false => rw [run_insert_fail e db a b c hc hr hi]
      | true =>
        cases hm : e.commitOk with
        | false => rw [run_commit_fail e db a b c hc hr hi hm]
        | true => rw [run_success e db a b c hc hr hi hm] at h; simp at h

/-- If the table has no row with id 42, the RETURNING result is empty. -/
theorem returningRows_eq_nil (cs : List CaseRow)
    (h : ∀ r ∈ cs, r.id ≠ 42) : returningRows cs = [] := by
  have hfil : (updatedCases cs).filter (fun r => r.id = 42) = [] := by
    rw [List.filter_eq_nil_iff]
    intro u hu
    rcases List.mem_map.mp hu with ⟨r, hr, hru⟩
    have hid : u.id = r.id := by rw [← hru]; exact updatedCases_elem_id r
    simp [hid, h r hr]
  rw [returningRows, hfil]
  rfl

/-- Every row of the RETURNING result comes from a row of the original
table with id 42; its name is that row's stored name and its status is
the fixed new status. -/
theorem returningRows_head_spec (cs : List CaseRow) (a : Nat) (b c : String)
    (h : (returningRows cs).head? = some (a, b, c)) :
    ∃ r ∈ cs, r.id = 42 ∧ b = r.case_name ∧ a = r.id ∧ c = newStatus := by
  rcases List.head?_eq_some_iff.mp h with ⟨ys, hys⟩
  have hmem : (a, b, c) ∈ returningRows cs := by
    rw [hys]; exact List.mem_cons_self _ _
  rcases List.mem_map.mp hmem with ⟨u, hu, hequ⟩
  rcases List.mem_filter.mp hu with ⟨hu2, hid⟩
  rcases List.mem_map.mp hu2 with ⟨r, hr, hru⟩
  have hid42 : u.id = 42 := by simpa using hid
  by_cases h42 : r.id = 42
  · refine ⟨r, hr, h42, ?_⟩
    rw [if_pos h42] at hru
    have hb : u.case_name = r.case_name := by rw [← hru]; rfl
    have hs : u.status = newStatus := by rw [← hru]; rfl
    have hia : u.id = r.id := by rw [← hru]; rfl
    obtain ⟨h1, h2, h3⟩ : u.id = a ∧ u.case_name = b ∧ u.status = c := by
      simpa using hequ
    exact ⟨h2.symm.trans hb, h1.symm.trans hia, h3.symm.trans hs⟩
  · exfalso
    rw [if_neg h42] at hru
    exact h42 (by rw [← hru] at hid42; exact hid42)

/-- The truncated name has at most 50 characters. -/
theorem pyTrunc50_length_le (s : String) : (pyTrunc50 s).length ≤ 50 := by
  have h : (pyTrunc50 s).length = (s.data.take 50).length := rfl
  rw [h, List.length_take]
  exact min_le_left _ _

/-- The confirmation line is never an error line. -/
theorem isErrorLine_confirmLine (rid : Nat) (rname rstatus : String) :
    isErrorLine (confirmLine rid rname rstatus) = false := rfl

/-- The confirmation line always starts with `Case 42 updated: `. -/
theorem confirmLine_startsWith (rid : Nat) (rname rstatus : String) :
    "Case 42 updated: ".data <+: (confirmLine rid rname rstatus).data := by
  have step : ∀ (x y : String), "Case 42 updated: ".data <+: x.data →
      "Case 42 updated: ".data <+: (x ++ y).data := by
    intro x y h
    rw [String.data_append]
    exact h.trans (List.prefix_append _ _)
  have h0 : "Case 42 updated: ".data <+: ("Case 42 updated: ID=" : String).data := by
    decide
  exact step _ _ (step _ _ (step _ _ (step _ _ (step _ _ h0))))

/-- A row is in relation with its image under a map, pointwise along a
list. -/
theorem forall₂_map_graph {α β : Type} (f : α → β) (R : α → β → Prop)
    (h : ∀ x, R x (f x)) : ∀ l : List α, List.Forall₂ R l (l.map f) := by
  intro l
  induction l with
  | nil => exact List.Forall₂.nil
  | cons x xs ih => exact List.Forall₂.cons (h x) ih

/-! ### Claims -/

/-- C1: for every database state containing a row in the cases table
with id 42, a successful run sets that row's status to the fixed value
`sent`, its portal_url to NULL, and its last_portal_status to the fixed
string `Cancelled - Odessa account locked`; the committed table contains
the row with exactly those three fields replaced. -/
theorem run_success_sets_case42_fields (e : Env) (db : DB)
    (hs : (run e db).didCommit = true) (r : CaseRow) (hr : r ∈ db.cases)
    (h42 : r.id = 42) :
    { r with status := "sent", portal_url := none,
             last_portal_status := "Cancelled - Odessa account locked" }
      ∈ (run e db).committed.cases := by
  rw [run_committed_of_didCommit e db hs]
  have hfr : (if r.id = 42 then updateRow r else r) =
      { r with status := "sent", portal_url := none,
               last_portal_status := "Cancelled - Odessa account locked" } := by
    rw [if_pos h42]; rfl
  rw [← hfr]
  exact List.mem_map_of_mem _ hr

/-- C1 witness: the sample database contains the target row, the
all-success run commits, and the committed table holds the target row
with the three fields set. -/
theorem run_success_sets_case42_fields_witness :
    { sampleRow with status := "sent", portal_url := none,
                     last_portal_status := "Cancelled - Odessa account locked" }
      ∈ (run goodEnv sampleDB).committed.cases :=
  run_success_sets_case42_fields goodEnv sampleDB (by decide) sampleRow
    (by decide) (by decide)

/-- C2: a successful run relates the original cases table to the
committed one position by position: a row whose id is not 42 is left
entirely unchanged, and every row keeps its id, its case_name and all
of its columns other than status, portal_url and last_portal_status. -/
theorem run_success_frame (e : Env) (db : DB)
    (hs : (run e db).didCommit = true) :
    List.Forall₂ (fun r r2 =>
        (r.id ≠ 42 → r2 = r) ∧ r2.id = r.id ∧ r2.case_name = r.case_name ∧
          r2.otherCols = r.otherCols)
      db.cases (run e db).committed.cases := by
  rw [run_committed_of_didCommit e db hs]
  exact forall₂_map_graph _ _
    (fun r => by by_cases h : r.id = 42 <;> simp [h, updateRow]) db.cases

/-- C2 witness: the frame relation at the sample database and the
all-success environment. -/
theorem run_success_frame_witness :
    List.Forall₂ (fun r r2 =>
        (r.id ≠ 42 → r2 = r) ∧ r2.id = r.id ∧ r2.case_name = r.case_name ∧
          r2.otherCols = r.otherCols)
      sampleDB.cases (run goodEnv sampleDB).committed.cases :=
  run_success_frame goodEnv sampleDB (by decide)

/-- C3: a successful run appends exactly one row to the activity log,
with case_id 42 and event_type `portal_cancelled`; a second successful
run appends a second such row, so the operation is not idempotent. -/
theorem run_appends_one_log_row_per_success (e1 e2 : Env) (db : DB)
    (h1 : (run e1 db).didCommit = true)
    (h2 : (run e2 (run e1 db).committed).didCommit = true) :
    (run e1 db).committed.activity_log = db.activity_log ++ [logRow e1.now] ∧
    (logRow e1.now).case_id = 42 ∧
    (logRow e1.now).event_type = "portal_cancelled" ∧
    (run e2 (run e1 db).committed).committed.activity_log =
      db.activity_log ++ [logRow e1.now, logRow e2.now] := by
  have hA := run_committed_of_didCommit e1 db h1
  have hB := run_committed_of_didCommit e2 _ h2
  refine ⟨by rw [hA], rfl, rfl, ?_⟩
  rw [hB, hA]
  simp

/-- C3 witness: two consecutive all-success runs on the sample database
append the two timestamped log rows. -/
theorem run_appends_one_log_row_per_success_witness :
    (run goodEnv sampleDB).committed.activity_log =
      sampleDB.activity_log ++ [logRow goodEnv.now] ∧
    (logRow goodEnv.now).case_id = 42 ∧
    (logRow goodEnv.now).event_type = "portal_cancelled" ∧
    (run goodEnv2 (run goodEnv sampleDB).committed).committed.activity_log =
      sampleDB.activity_log ++ [logRow goodEnv.now, logRow goodEnv2.now] :=
  run_appends_one_log_row_per_success goodEnv goodEnv2 sampleDB
    (by decide) (by decide)

/-- C4: the two statements commit atomically: either the run did not
commit and the committed database is exactly the initial one (in
particular, when the INSERT fails after the UPDATE succeeded, neither
change is visible), or the run committed, both statements were issued,
and the committed state holds both changes. -/
theorem run_transaction_atomic (e : Env) (db : DB) :
    ((run e db).didCommit = false ∧ (run e db).committed = db) ∨
    ((run e db).didCommit = true ∧ (run e db).executedUpdate = true ∧
     (run e db).executedInsert = true ∧
     (run e db).committed =
       ⟨updatedCases db.cases, db.activity_log ++ [logRow e.now]⟩) := by
  cases hc : connects e with
  | false => exact Or.inl ⟨by rw [run_not_connects e db hc],
      by rw [run_not_connects e db hc]⟩
  | true =>
    cases hr : (returningRows db.cases).head? with
    | none => exact Or.inl ⟨by rw [run_fetch_none e db hc hr],
        by rw [run_fetch_none e db hc hr]⟩
    | some p =>
      obtain ⟨a, b, c⟩ := p
      cases hi : e.insertOk with
      | false => exact Or.inl ⟨by rw [run_insert_fail e db a b c hc hr hi],
          by rw [run_insert_fail e db a b c hc hr hi]⟩
      | true =>
        cases hm : e.commitOk with
        | false => exact Or.inl ⟨by rw [run_commit_fail e db a b c hc hr hi hm],
            by rw [run_commit_fail e db a b c hc hr hi hm]⟩
        | true =>
          exact Or.inr ⟨by rw [run_success e db a b c hc hr hi hm],
            by rw [run_success e db a b c hc hr hi hm],
            by rw [run_success e db a b c hc hr hi hm],
            by rw [run_success e db a b c hc hr hi hm]⟩

/-- C5: when no row with id 42 exists, the run prints an error line,
never issues the INSERT, does not commit, and the committed database is
unchanged. -/
theorem run_no_target_row_aborts (e : Env) (db : DB)
    (h : ∀ r ∈ db.cases, r.id ≠ 42) :
    (∃ s ∈ (run e db).output, isErrorLine s = true) ∧
    (run e db).executedInsert = false ∧ (run e db).didCommit = false ∧
    (run e db).committed = db := by
  cases hc : connects e with
  | false =>
    rw [run_not_connects e db hc]
    exact ⟨⟨"Error: connection failed", by simp, by decide⟩, rfl, rfl, rfl⟩
  | true =>
    have hnil : (returningRows db.cases).head? = none := by
      rw [returningRows_eq_nil db.cases h]; rfl
    rw [run_fetch_none e db hc hnil]
    exact ⟨⟨"Error: NoneType object is not subscriptable", by simp, by decide⟩,
      rfl, rfl, rfl⟩

/-- C5 witness: the run on a database with no row 42, under an
otherwise healthy environment. -/
theorem run_no_target_row_aborts_witness :
    (∃ s ∈ (run goodEnv noTargetDB).output, isErrorLine s = true) ∧
    (run goodEnv noTargetDB).executedInsert = false ∧
    (run goodEnv noTargetDB).didCommit = false ∧
    (run goodEnv noTargetDB).committed = noTargetDB :=
  run_no_target_row_aborts goodEnv noTargetDB (by decide)

/-- C6 counterexample: a run whose connection fails (the connection
string is absent) ends with exit code 0, exactly the exit code of a
fully successful run, so there is no failure exit signal distinct from
normal success. -/
theorem run_connect_failure_exit_matches_success :
    connects noUrlEnv = false ∧ (run noUrlEnv sampleDB).didCommit = false ∧
    (run goodEnv sampleDB).didCommit = true ∧
    (run noUrlEnv sampleDB).exitCode = (run goodEnv sampleDB).exitCode := by
  decide

/-- C6 amended: when the connection-string value is absent or the
connection cannot be established, the runner prints an error line and
performs no database action, but terminates normally with exit code 0,
the same outcome as a successful run: there is no distinct failure
signal. -/
theorem run_connect_failure_exits_normally (e : Env) (db : DB)
    (h : connects e = false) :
    (∃ s ∈ (run e db).output, isErrorLine s = true) ∧
    (run e db).exitCode = 0 ∧ (run e db).executedUpdate = false ∧
    (run e db).committed = db := by
  rw [run_not_connects e db h]
  exact ⟨⟨"Error: connection failed", by simp, by decide⟩, rfl, rfl, rfl⟩

/-- C6 witness: the amended statement at the environment with no
`DATABASE_URL`. -/
theorem run_connect_failure_exits_normally_witness :
    (∃ s ∈ (run noUrlEnv sampleDB).output, isErrorLine s = true) ∧
    (run noUrlEnv sampleDB).exitCode = 0 ∧
    (run noUrlEnv sampleDB).executedUpdate = false ∧
    (run noUrlEnv sampleDB).committed = sampleDB :=
  run_connect_failure_exits_normally noUrlEnv sampleDB (by decide)

/-- C7: every failing run, whatever the failure, prints exactly one
line of the form `Error: <message>` and the process ends normally with
exit code 0, without re-raising. -/
theorem run_failure_prints_single_error_line (e : Env) (db : DB)
    (h : (run e db).didCommit = false) :
    ((run e db).output.filter (fun s => isErrorLine s)).length = 1 ∧
    (run e db).exitCode = 0 := by
  cases hc : connects e with
  | false => rw [run_not_connects e db hc]; exact ⟨rfl, rfl⟩
  | true =>
    cases hr : (returningRows db.cases).head? with
    | none => rw [run_fetch_none e db hc hr]; exact ⟨rfl, rfl⟩
    | some p =>
      obtain ⟨a, b, c⟩ := p
      cases hi : e.insertOk with
      | false =>
        rw [run_insert_fail e db a b c hc hr hi]
        refine ⟨?_, rfl⟩
        have hx := isErrorLine_confirmLine a b c
        simp [List.filter_cons, hx]
        decide
      | true =>
        cases hm : e.commitOk with
        | false =>
          rw [run_commit_fail e db a b c hc hr hi hm]
          refine ⟨?_, rfl⟩
          have hx := isErrorLine_confirmLine a b c
          simp [List.filter_cons, hx]
          decide
        | true =>
          rw [run_success e db a b c hc hr hi hm] at h
          simp at h

/-- C7 witness: the run whose INSERT fails prints one error line and
exits with code 0. -/
theorem run_failure_prints_single_error_line_witness :
    ((run insertFailEnv sampleDB).output.filter
        (fun s => isErrorLine s)).length = 1 ∧
    (run insertFailEnv sampleDB).exitCode = 0 :=
  run_failure_prints_single_error_line insertFailEnv sampleDB (by decide)

/-- C8: whenever the confirmation line is printed, the name shown in it
has at most 50 characters and is the 50-character truncation of the
stored case_name of a row with id 42. -/
theorem run_printed_name_truncated (e : Env) (db : DB) (s : String)
    (h : (run e db).printedName = some s) :
    s.length ≤ 50 ∧ ∃ r ∈ db.cases, r.id = 42 ∧ s = pyTrunc50 r.case_name := by
  cases hc : connects e with
  | false => rw [run_not_connects e db hc] at h; simp at h
  | true =>
    cases hr : (returningRows db.cases).head? with
    | none => rw [run_fetch_none e db hc hr] at h; simp at h
    | some p =>
      obtain ⟨a, b, c⟩ := p
      have hb : s = pyTrunc50 b := by
        cases hi : e.insertOk with
        | false =>
          rw [run_insert_fail e db a b c hc hr hi] at h
          simpa using h.symm
        | true =>
          cases hm : e.commitOk with
          | false =>
            rw [run_commit_fail e db a b c hc hr hi hm] at h
            simpa using h.symm
          | true =>
            rw [run_success e db a b c hc hr hi hm] at h
            simpa using h.symm
      rcases returningRows_head_spec db.cases a b c hr with
        ⟨r, hrmem, h42, hbname, _, _⟩
      refine ⟨hb ▸ pyTrunc50_length_le b, r, hrmem, h42, ?_⟩
      rw [hb, hbname]

/-- C8 witness: the all-success run on the sample database, whose
stored name has 66 characters, prints its 50-character truncation. -/
theorem run_printed_name_truncated_witness :
    (pyTrunc50 sampleRow.case_name).length ≤ 50 ∧
    ∃ r ∈ sampleDB.cases, r.id = 42 ∧
      pyTrunc50 sampleRow.case_name = pyTrunc50 r.case_name :=
  run_printed_name_truncated goodEnv sampleDB
    (pyTrunc50 sampleRow.case_name) (by decide)

/-- C9: when the connection-string value is unset or invalid, the run
prints an error line and performs no database mutation: neither the
UPDATE nor the INSERT is ever issued, and the committed state is the
initial one. -/
theorem run_connect_failure_no_mutation (e : Env) (db : DB)
    (h : connects e = false) :
    (∃ s ∈ (run e db).output, isErrorLine s = true) ∧
    (run e db).executedUpdate = false ∧
    (run e db).executedInsert = false ∧
    (run e db).committed = db := by
  rw [run_not_connects e db h]
  exact ⟨⟨"Error: connection failed", by simp, by decide⟩, rfl, rfl, rfl⟩

/-- C9 witness: the statement at the environment whose `DATABASE_URL`
is unset. -/
theorem run_connect_failure_no_mutation_witness :
    (∃ s ∈ (run noUrlEnv noTargetDB).output, isErrorLine s = true) ∧
    (run noUrlEnv noTargetDB).executedUpdate = false ∧
    (run noUrlEnv noTargetDB).executedInsert = false ∧
    (run noUrlEnv noTargetDB).committed = noTargetDB :=
  run_connect_failure_no_mutation noUrlEnv noTargetDB (by decide)

/-- C10: whenever the confirmation line was printed but the run did not
commit (the INSERT or the commit failed), the first line of standard
output is the `Case 42 updated: ...` line, even though the committed
database is unchanged. -/
theorem run_confirm_line_precedes_commit (e : Env) (db : DB)
    (h1 : (run e db).printedName.isSome = true)
    (h2 : (run e db).didCommit = false) :
    (∃ s, (run e db).output.head? = some s ∧
       "Case 42 updated: ".data <+: s.data ∧ isErrorLine s = false) ∧
    (run e db).committed = db := by
  cases hc : connects e with
  | false => rw [run_not_connects e db hc] at h1; simp at h1
  | true =>
    cases hr : (returningRows db.cases).head? with
    | none => rw [run_fetch_none e db hc hr] at h1; simp at h1
    | some p =>
      obtain ⟨a, b, c⟩ := p
      cases hi : e.insertOk with
      | false =>
        rw [run_insert_fail e db a b c hc hr hi]
        exact ⟨⟨confirmLine a b c, rfl, confirmLine_startsWith a b c,
          isErrorLine_confirmLine a b c⟩, rfl⟩
      | true =>
        cases hm : e.commitOk with
        | false =>
          rw [run_commit_fail e db a b c hc hr hi hm]
          exact ⟨⟨confirmLine a b c, rfl, confirmLine_startsWith a b c,
            isErrorLine_confirmLine a b c⟩, rfl⟩
        | true =>
          rw [run_success e db a b c hc hr hi hm] at h2
          simp at h2

/-- C10 witness: the run whose INSERT fails printed the confirmation
line first and committed nothing. -/
theorem run_confirm_line_precedes_commit_witness :
    (∃ s, (run insertFailEnv sampleDB).output.head? = some s ∧
       "Case 42 updated: ".data <+: s.data ∧ isErrorLine s = false) ∧
    (run insertFailEnv sampleDB).committed = sampleDB :=
  run_confirm_line_precedes_commit insertFailEnv sampleDB
    (by decide) (by decide)
